import Mathlib

/-!
Verification of the payment retry and rate limiting subsystem
(src/utils/payment_retry.py and src/utils/rate_limiting.py).

The Python code is shallowly embedded: time values (both time.time() and
datetime.utcnow()) are modelled as natural-number seconds passed explicitly,
the mutable in-memory dictionaries become explicit state passing over
function maps, and the gateway error object becomes an optional record of
optional string fields (getattr with a default models an absent attribute).
-/

/-! ## Payment retry: data model (src/utils/payment_retry.py) -/

/-- Classification of payment failure reasons (enum PaymentFailureReason). -/
inductive PaymentFailureReason where
  | card_declined
  | insufficient_funds
  | expired_card
  | incorrect_cvc
  | processing_error
  | authentication_required
  | network_error
  | rate_limited
  | unknown
deriving DecidableEq

/-- The .value string of each PaymentFailureReason enum member. -/
def PaymentFailureReason.value : PaymentFailureReason → String
  | .card_declined => "card_declined"
  | .insufficient_funds => "insufficient_funds"
  | .expired_card => "expired_card"
  | .incorrect_cvc => "incorrect_cvc"
  | .processing_error => "processing_error"
  | .authentication_required => "authentication_required"
  | .network_error => "network_error"
  | .rate_limited => "rate_limited"
  | .unknown => "unknown"

/-- Retry strategies (enum RetryStrategy). -/
inductive RetryStrategy where
  | immediate
  | linear_backoff
  | exponential_backoff
  | no_retry
  | user_action_required
deriving DecidableEq

/-- A Stripe error object: the three attributes the code reads via getattr.
An absent attribute is modelled as none. -/
structure StripeError where
  code : Option String
  type : Option String
  decline_code : Option String
deriving DecidableEq

/-- Individual retry attempt data (dataclass RetryAttempt).
Datetimes are seconds as Nat. -/
structure RetryAttempt where
  attempt_number : Nat
  timestamp : Nat
  failure_reason : String
  stripe_error_code : String
  retry_after_seconds : Nat
  next_retry_time : Option Nat := none
  success : Bool := false
deriving DecidableEq

/-- Complete retry context for a payment (dataclass PaymentRetryContext). -/
structure PaymentRetryContext where
  order_id : Nat
  payment_intent_id : String
  original_failure_reason : PaymentFailureReason
  retry_strategy : RetryStrategy
  max_attempts : Nat
  current_attempts : Nat
  attempts : List RetryAttempt
  created_at : Nat
  last_retry_at : Option Nat := none
  next_retry_at : Option Nat := none
  final_failure : Bool := false
  customer_notified : Bool := false
deriving DecidableEq

/-- One entry of PaymentRetryService.retry_configs. -/
structure RetryConfig where
  strategy : RetryStrategy
  max_attempts : Nat
  notify_customer : Bool
  message : String
deriving DecidableEq

/-- The static retry configuration table (PaymentRetryService.retry_configs).
Every enum member has an entry, so the dictionary lookup is total. -/
def retry_configs : PaymentFailureReason → RetryConfig
  | .card_declined =>
      ⟨.no_retry, 0, true,
        "Your card was declined. Please try a different payment method."⟩
  | .insufficient_funds =>
      ⟨.user_action_required, 0, true,
        "Insufficient funds. Please check your account balance or use a different card."⟩
  | .expired_card =>
      ⟨.no_retry, 0, true,
        "Your card has expired. Please update your payment information."⟩
  | .incorrect_cvc =>
      ⟨.no_retry, 0, true,
        "Incorrect CVC code. Please check your card details and try again."⟩
  | .processing_error =>
      ⟨.exponential_backoff, 3, false,
        "Payment processing error. We\x27ll retry automatically."⟩
  | .network_error =>
      ⟨.exponential_backoff, 5, false,
        "Network error. We\x27ll retry automatically."⟩
  | .authentication_required =>
      ⟨.user_action_required, 0, true,
        "Additional authentication required. Please complete 3D Secure verification."⟩
  | .rate_limited =>
      ⟨.linear_backoff, 3, false,
        "Rate limited. We\x27ll retry automatically."⟩
  | .unknown =>
      ⟨.exponential_backoff, 2, true,
        "Payment failed. We\x27ll retry and notify you of the outcome."⟩

/-! ## Payment retry: operations -/

/-- PaymentRetryService.classify_failure_reason. A None error object is
modelled as none; getattr(e, f, default) becomes Option.getD. -/
def classify_failure_reason (stripe_error : Option StripeError) : PaymentFailureReason :=
  match stripe_error with
  | none => .unknown
  | some e =>
    let error_code := e.code.getD ""
    let error_type := e.type.getD ""
    let decline_code := e.decline_code.getD ""
    if error_code = "card_declined" ∨ error_code = "generic_decline" then
      if decline_code = "insufficient_funds" then .insufficient_funds
      else if decline_code = "expired_card" then .expired_card
      else if decline_code = "incorrect_cvc" ∨ decline_code = "invalid_cvc" then .incorrect_cvc
      else .card_declined
    else if error_code = "authentication_required" then .authentication_required
    else if error_code = "processing_error" then .processing_error
    else if error_type = "rate_limit_error" then .rate_limited
    else if error_type = "api_connection_error" ∨ error_type = "api_error" then .network_error
    else .unknown

/-- PaymentRetryService.calculate_retry_delay. The 1-based attempt number;
the exponential formula uses Nat subtraction, which agrees with the source
for attempt numbers at least 1 (the only values callers pass). -/
def calculate_retry_delay (strategy : RetryStrategy) (attempt_number : Nat) : Nat :=
  match strategy with
  | .immediate => 0
  | .linear_backoff => attempt_number * 60
  | .exponential_backoff => (2 ^ (attempt_number - 1)) * 60
  | _ => 0

/-- PaymentRetryService.should_retry_payment. -/
def should_retry_payment (failure_reason : PaymentFailureReason)
    (current_attempts : Nat) : Bool :=
  let config := retry_configs failure_reason
  if config.strategy = RetryStrategy.no_retry ∨
     config.strategy = RetryStrategy.user_action_required then
    false
  else
    decide (current_attempts < config.max_attempts)

/-- PaymentRetryService.create_retry_context. The produced context; the
insertion into the retry_contexts dictionary is threaded by callers. Both
datetime.utcnow() calls are the parameter now. -/
def create_retry_context (now : Nat) (order_id : Nat) (payment_intent_id : String)
    (stripe_error : Option StripeError) : PaymentRetryContext :=
  let failure_reason := classify_failure_reason stripe_error
  let config := retry_configs failure_reason
  let next_retry_time : Option Nat :=
    if config.strategy = RetryStrategy.no_retry ∨
       config.strategy = RetryStrategy.user_action_required then
      none
    else
      some (now + calculate_retry_delay config.strategy 1)
  let initial_attempt : RetryAttempt :=
    { attempt_number := 1
      timestamp := now
      failure_reason := failure_reason.value
      stripe_error_code := (stripe_error.bind (fun e => e.code)).getD "unknown"
      retry_after_seconds := 0
      next_retry_time := next_retry_time
      success := false }
  { order_id := order_id
    payment_intent_id := payment_intent_id
    original_failure_reason := failure_reason
    retry_strategy := config.strategy
    max_attempts := config.max_attempts
    current_attempts := 1
    attempts := [initial_attempt]
    created_at := now
    next_retry_at := next_retry_time }

/-- PaymentRetryService.add_retry_attempt, as the transformation of the
context looked up for the payment intent (the dictionary lookup, which
returns False when the context is missing, is threaded by callers). -/
def add_retry_attempt (now : Nat) (context : PaymentRetryContext)
    (stripe_error : Option StripeError) (success : Bool) : PaymentRetryContext :=
  let current_attempts := context.current_attempts + 1
  let doRetry := !success &&
    should_retry_payment context.original_failure_reason current_attempts
  let retry_delay :=
    if doRetry then calculate_retry_delay context.retry_strategy current_attempts else 0
  let next_retry_time : Option Nat :=
    if doRetry then some (now + retry_delay) else none
  let attempt : RetryAttempt :=
    { attempt_number := current_attempts
      timestamp := now
      failure_reason :=
        match stripe_error with
        | some _ => (classify_failure_reason stripe_error).value
        | none => "success"
      stripe_error_code := (stripe_error.bind (fun e => e.code)).getD "none"
      retry_after_seconds := retry_delay
      next_retry_time := next_retry_time
      success := success }
  { context with
      current_attempts := current_attempts
      next_retry_at := next_retry_time
      final_failure := if doRetry then context.final_failure else !success
      attempts := context.attempts ++ [attempt]
      last_retry_at := some now }

/-- A user row, as read by the notification code (order.user.name). -/
structure User where
  name : String
deriving DecidableEq

/-- An order row, as read by the notification code. -/
structure Order where
  id : Nat
  user : Option User
  total_amount : Nat
  created_at : Nat
deriving DecidableEq

/-- PaymentRetryService.send_customer_notification. The ORM lookup
Order.query.get is the orders parameter; the email transport is a log line
in the source, so the middle Bool records whether that send point was
reached. Result: (updated context, notification sent, returned value). -/
def send_customer_notification (orders : Nat → Option Order) (order_id : Nat)
    (failure_reason : PaymentFailureReason) (context : PaymentRetryContext) :
    PaymentRetryContext × Bool × Bool :=
  match orders order_id with
  | none => (context, false, false)
  | some order =>
    match order.user with
    | none => (context, false, false)
    | some _ =>
      let config := retry_configs failure_reason
      if config.notify_customer = false then
        (context, false, true)
      else
        ({ context with customer_notified := true }, true, true)

/-! ## Claims C1, C3, C4, C5, C6 -/

/-- Claim C3: for every input error descriptor, including none and
descriptors with any of the code, type and decline_code fields absent,
classify_failure_reason returns exactly one of the nine defined failure
categories and never raises (it is a total Lean function into the
nine-constructor enum). -/
theorem classify_total (e : Option StripeError) :
    classify_failure_reason e = .card_declined ∨
    classify_failure_reason e = .insufficient_funds ∨
    classify_failure_reason e = .expired_card ∨
    classify_failure_reason e = .incorrect_cvc ∨
    classify_failure_reason e = .processing_error ∨
    classify_failure_reason e = .authentication_required ∨
    classify_failure_reason e = .network_error ∨
    classify_failure_reason e = .rate_limited ∨
    classify_failure_reason e = .unknown := by
  cases h : classify_failure_reason e <;> simp

/-- Claim C4: calculate_retry_delay is a pure function of strategy and the
1-based attempt number: immediate gives 0, linear gives attempt * 60,
exponential gives 2 ^ (attempt - 1) * 60, and for exponential the delays of
attempts 1..4 are 60, 120, 240, 480 seconds. -/
theorem calculate_retry_delay_spec (n : Nat) (h : 1 ≤ n) :
    calculate_retry_delay .immediate n = 0 ∧
    calculate_retry_delay .linear_backoff n = n * 60 ∧
    calculate_retry_delay .exponential_backoff n = 2 ^ (n - 1) * 60 ∧
    calculate_retry_delay .exponential_backoff 1 = 60 ∧
    calculate_retry_delay .exponential_backoff 2 = 120 ∧
    calculate_retry_delay .exponential_backoff 3 = 240 ∧
    calculate_retry_delay .exponential_backoff 4 = 480 := by
  refine ⟨rfl, rfl, rfl, rfl, rfl, rfl, rfl⟩

/-- Witness for calculate_retry_delay_spec at attempt number 3. -/
theorem calculate_retry_delay_spec_witness :
    calculate_retry_delay .immediate 3 = 0 ∧
    calculate_retry_delay .linear_backoff 3 = 3 * 60 ∧
    calculate_retry_delay .exponential_backoff 3 = 2 ^ (3 - 1) * 60 ∧
    calculate_retry_delay .exponential_backoff 1 = 60 ∧
    calculate_retry_delay .exponential_backoff 2 = 120 ∧
    calculate_retry_delay .exponential_backoff 3 = 240 ∧
    calculate_retry_delay .exponential_backoff 4 = 480 :=
  calculate_retry_delay_spec 3 (by decide)

/-- Claim C1, counterexample: on the gateway error with code card_declined
and decline_code insufficient_funds, the freshly created context does NOT
have final_failure = true — create_retry_context never sets final_failure,
so it keeps its dataclass default False. -/
theorem create_context_final_failure_cex :
    ¬ ((create_retry_context 0 1 "pi_1"
          (some ⟨some "card_declined", none, some "insufficient_funds"⟩)).final_failure
        = true) := by
  decide

/-- Claim C1, amended: for the gateway error with code card_declined and
decline_code insufficient_funds, classification yields insufficient_funds,
the context is created with strategy user_action_required and max_attempts
0, and after this single attempt it has current_attempts = 1,
next_retry_at = none and final_failure = FALSE (the terminal flag is only
ever set by a later add_retry_attempt call, never at creation). -/
theorem create_context_insufficient_funds (now oid : Nat) (pid : String) :
    classify_failure_reason
        (some ⟨some "card_declined", none, some "insufficient_funds"⟩)
      = .insufficient_funds ∧
    (retry_configs .insufficient_funds).strategy = .user_action_required ∧
    (retry_configs .insufficient_funds).max_attempts = 0 ∧
    (create_retry_context now oid pid
        (some ⟨some "card_declined", none, some "insufficient_funds"⟩)).retry_strategy
      = .user_action_required ∧
    (create_retry_context now oid pid
        (some ⟨some "card_declined", none, some "insufficient_funds"⟩)).max_attempts = 0 ∧
    (create_retry_context now oid pid
        (some ⟨some "card_declined", none, some "insufficient_funds"⟩)).current_attempts = 1 ∧
    (create_retry_context now oid pid
        (some ⟨some "card_declined", none, some "insufficient_funds"⟩)).next_retry_at = none ∧
    (create_retry_context now oid pid
        (some ⟨some "card_declined", none, some "insufficient_funds"⟩)).final_failure = false := by
  refine ⟨rfl, rfl, rfl, rfl, rfl, rfl, rfl, rfl⟩

/-- Claim C5: for a category whose strategy permits retries,
should_retry_payment is true iff the attempt count is below the configured
max_attempts; at the boundary it is true at N - 1 and false at N, and the
Nth failed attempt makes the context terminal: final_failure set and
next_retry_at cleared. -/
theorem should_retry_boundary (reason : PaymentFailureReason) (N : Nat)
    (hperm : (retry_configs reason).strategy ≠ RetryStrategy.no_retry ∧
             (retry_configs reason).strategy ≠ RetryStrategy.user_action_required)
    (hN : (retry_configs reason).max_attempts = N) (hN1 : 1 ≤ N)
    (ctx : PaymentRetryContext) (err : Option StripeError) (now : Nat)
    (hr : ctx.original_failure_reason = reason)
    (hc : ctx.current_attempts = N - 1) :
    (∀ a, should_retry_payment reason a = true ↔ a < N) ∧
    should_retry_payment reason (N - 1) = true ∧
    should_retry_payment reason N = false ∧
    (add_retry_attempt now ctx err false).current_attempts = N ∧
    (add_retry_attempt now ctx err false).final_failure = true ∧
    (add_retry_attempt now ctx err false).next_retry_at = none := by
  have hiff : ∀ a, should_retry_payment reason a = true ↔ a < N := by
    intro a
    unfold should_retry_payment
    rw [if_neg (not_or.mpr hperm), hN]
    exact decide_eq_true_iff
  have hcur : ctx.current_attempts + 1 = N := by omega
  have hfalse : should_retry_payment reason N = false := by
    by_contra h
    have := (hiff N).mp (by revert h; cases should_retry_payment reason N <;> simp)
    omega
  refine ⟨hiff, (hiff (N - 1)).mpr (by omega), hfalse, ?_, ?_, ?_⟩
  · simp [add_retry_attempt, hcur]
  · simp [add_retry_attempt, hr, hcur, hfalse]
  · simp [add_retry_attempt, hr, hcur, hfalse]

/-- Witness for should_retry_boundary: processing_error has
max_attempts 3; taken at a context with 2 recorded attempts. -/
theorem should_retry_boundary_witness :
    should_retry_payment .processing_error (3 - 1) = true ∧
    should_retry_payment .processing_error 3 = false ∧
    (add_retry_attempt 50
        { order_id := 1, payment_intent_id := "pi_2",
          original_failure_reason := .processing_error,
          retry_strategy := .exponential_backoff, max_attempts := 3,
          current_attempts := 2, attempts := [], created_at := 0 }
        (some ⟨some "processing_error", none, none⟩) false).current_attempts = 3 ∧
    (add_retry_attempt 50
        { order_id := 1, payment_intent_id := "pi_2",
          original_failure_reason := .processing_error,
          retry_strategy := .exponential_backoff, max_attempts := 3,
          current_attempts := 2, attempts := [], created_at := 0 }
        (some ⟨some "processing_error", none, none⟩) false).final_failure = true ∧
    (add_retry_attempt 50
        { order_id := 1, payment_intent_id := "pi_2",
          original_failure_reason := .processing_error,
          retry_strategy := .exponential_backoff, max_attempts := 3,
          current_attempts := 2, attempts := [], created_at := 0 }
        (some ⟨some "processing_error", none, none⟩) false).next_retry_at = none :=
  (should_retry_boundary .processing_error 3 (by decide) rfl (by decide)
    { order_id := 1, payment_intent_id := "pi_2",
      original_failure_reason := .processing_error,
      retry_strategy := .exponential_backoff, max_attempts := 3,
      current_attempts := 2, attempts := [], created_at := 0 }
    (some ⟨some "processing_error", none, none⟩) 50 rfl rfl).2

/-- Claim C6, counterexample: the notification step is not idempotent in
sends. After a first call has set customer_notified, a second call on the
same context still reaches the send point (second component true), so two
calls send two notifications, not at most one. -/
theorem send_notification_cex :
    (send_customer_notification
        (fun _ => some ⟨7, some ⟨"Alice"⟩, 5000, 0⟩) 7 .insufficient_funds
        { order_id := 7, payment_intent_id := "pi_7",
          original_failure_reason := .insufficient_funds,
          retry_strategy := .user_action_required, max_attempts := 0,
          current_attempts := 1, attempts := [], created_at := 0 }).2.1 = true ∧
    (send_customer_notification
        (fun _ => some ⟨7, some ⟨"Alice"⟩, 5000, 0⟩) 7 .insufficient_funds
        { order_id := 7, payment_intent_id := "pi_7",
          original_failure_reason := .insufficient_funds,
          retry_strategy := .user_action_required, max_attempts := 0,
          current_attempts := 1, attempts := [], created_at := 0 }).1.customer_notified
      = true ∧
    ¬ ((send_customer_notification
        (fun _ => some ⟨7, some ⟨"Alice"⟩, 5000, 0⟩) 7 .insufficient_funds
        (send_customer_notification
          (fun _ => some ⟨7, some ⟨"Alice"⟩, 5000, 0⟩) 7 .insufficient_funds
          { order_id := 7, payment_intent_id := "pi_7",
            original_failure_reason := .insufficient_funds,
            retry_strategy := .user_action_required, max_attempts := 0,
            current_attempts := 1, attempts := [], created_at := 0 }).1).2.1 = false) := by
  refine ⟨rfl, rfl, ?_⟩
  decide

/-- Claim C6, amended: for an order that exists with a user and a failure
reason configured with notify_customer, the notification step sends on
every call — it has no guard on customer_notified — but each call returns
success, customer_notified is true after either call, and the context
state itself is idempotent (the second call leaves the context unchanged). -/
theorem send_notification_amended (orders : Nat → Option Order) (oid : Nat)
    (reason : PaymentFailureReason) (ctx : PaymentRetryContext)
    (o : Order) (u : User)
    (ho : orders oid = some o) (hu : o.user = some u)
    (hn : (retry_configs reason).notify_customer = true) :
    (send_customer_notification orders oid reason ctx).2.1 = true ∧
    (send_customer_notification orders oid reason ctx).2.2 = true ∧
    (send_customer_notification orders oid reason ctx).1.customer_notified = true ∧
    (send_customer_notification orders oid reason
        (send_customer_notification orders oid reason ctx).1).2.1 = true ∧
    (send_customer_notification orders oid reason
        (send_customer_notification orders oid reason ctx).1).2.2 = true ∧
    (send_customer_notification orders oid reason
        (send_customer_notification orders oid reason ctx).1).1
      = (send_customer_notification orders oid reason ctx).1 := by
  simp [send_customer_notification, ho, hu, hn]

/-- Witness for send_notification_amended on a concrete order and context. -/
theorem send_notification_amended_witness :
    (send_customer_notification (fun _ => some ⟨8, some ⟨"Bob"⟩, 900, 0⟩) 8
        .card_declined
        { order_id := 8, payment_intent_id := "pi_8",
          original_failure_reason := .card_declined,
          retry_strategy := .no_retry, max_attempts := 0,
          current_attempts := 1, attempts := [], created_at := 0 }).2.1 = true ∧
    (send_customer_notification (fun _ => some ⟨8, some ⟨"Bob"⟩, 900, 0⟩) 8
        .card_declined
        { order_id := 8, payment_intent_id := "pi_8",
          original_failure_reason := .card_declined,
          retry_strategy := .no_retry, max_attempts := 0,
          current_attempts := 1, attempts := [], created_at := 0 }).2.2 = true ∧
    (send_customer_notification (fun _ => some ⟨8, some ⟨"Bob"⟩, 900, 0⟩) 8
        .card_declined
        { order_id := 8, payment_intent_id := "pi_8",
          original_failure_reason := .card_declined,
          retry_strategy := .no_retry, max_attempts := 0,
          current_attempts := 1, attempts := [], created_at := 0 }).1.customer_notified
      = true ∧
    (send_customer_notification (fun _ => some ⟨8, some ⟨"Bob"⟩, 900, 0⟩) 8
        .card_declined
        (send_customer_notification (fun _ => some ⟨8, some ⟨"Bob"⟩, 900, 0⟩) 8
          .card_declined
          { order_id := 8, payment_intent_id := "pi_8",
            original_failure_reason := .card_declined,
            retry_strategy := .no_retry, max_attempts := 0,
            current_attempts := 1, attempts := [], created_at := 0 }).1).2.1 = true ∧
    (send_customer_notification (fun _ => some ⟨8, some ⟨"Bob"⟩, 900, 0⟩) 8
        .card_declined
        (send_customer_notification (fun _ => some ⟨8, some ⟨"Bob"⟩, 900, 0⟩) 8
          .card_declined
          { order_id := 8, payment_intent_id := "pi_8",
            original_failure_reason := .card_declined,
            retry_strategy := .no_retry, max_attempts := 0,
            current_attempts := 1, attempts := [], created_at := 0 }).1).2.2 = true ∧
    (send_customer_notification (fun _ => some ⟨8, some ⟨"Bob"⟩, 900, 0⟩) 8
        .card_declined
        (send_customer_notification (fun _ => some ⟨8, some ⟨"Bob"⟩, 900, 0⟩) 8
          .card_declined
          { order_id := 8, payment_intent_id := "pi_8",
            original_failure_reason := .card_declined,
            retry_strategy := .no_retry, max_attempts := 0,
            current_attempts := 1, attempts := [], created_at := 0 }).1).1
      = (send_customer_notification (fun _ => some ⟨8, some ⟨"Bob"⟩, 900, 0⟩) 8
          .card_declined
          { order_id := 8, payment_intent_id := "pi_8",
            original_failure_reason := .card_declined,
            retry_strategy := .no_retry, max_attempts := 0,
            current_attempts := 1, attempts := [], created_at := 0 }).1 :=
  send_notification_amended (fun _ => some ⟨8, some ⟨"Bob"⟩, 900, 0⟩) 8
    .card_declined
    { order_id := 8, payment_intent_id := "pi_8",
      original_failure_reason := .card_declined,
      retry_strategy := .no_retry, max_attempts := 0,
      current_attempts := 1, attempts := [], created_at := 0 }
    ⟨8, some ⟨"Bob"⟩, 900, 0⟩ ⟨"Bob"⟩ rfl rfl rfl

/-! ## Rate limiting: data model (src/utils/rate_limiting.py) -/

/-- Python int() restricted to the decimal digit strings the store writes. -/
def pyInt (s : String) : Nat :=
  s.data.foldl (fun n c => n * 10 + (c.toNat - 48)) 0

/-- Python truthiness of an optional string (None and the empty string are
falsy). -/
def pyTruthy : Option String → Bool
  | none => false
  | some v => !v.data.isEmpty

/-- Python str.lower, characterwise. -/
def pyLower (s : String) : String := ⟨s.data.map Char.toLower⟩

/-- Whether pat occurs at the head of the text. -/
def startsWithCh : List Char → List Char → Bool
  | [], _ => true
  | _ :: _, [] => false
  | a :: pat, b :: text => a == b && startsWithCh pat text

/-- Whether pat occurs anywhere in the text (Python "pat in text"). -/
def hasSubCh (pat : List Char) : List Char → Bool
  | [] => startsWithCh pat []
  | text@(_ :: rest) => startsWithCh pat text || hasSubCh pat rest

/-- Python substring containment: pat in s. -/
def strContainsSub (s pat : String) : Bool := hasSubCh pat.data s.data

/-- One value of the in-memory store dictionary: a string value together
with its absolute expiry time (time.time() seconds as Nat). -/
structure StoreItem where
  value : String
  expires : Nat
deriving DecidableEq

/-- The in-memory dictionary of RateLimitStore, as a function map. -/
abbrev MemMap := String → Option StoreItem

/-- Result of one call against the remote (Redis) store: a returned value,
or a raised connection error. -/
inductive RemoteResult (α : Type) where
  | ok : α → RemoteResult α
  | err : RemoteResult α
deriving DecidableEq

/-- RateLimitStore state: the in-memory dict plus whether self.redis_client
is a live client (true) or None (false). -/
structure RateLimitStore where
  store : MemMap
  redis_client : Bool

/-- In-memory branch of RateLimitStore.get: an expired entry is deleted. -/
def memGet (m : MemMap) (now : Nat) (key : String) : Option String × MemMap :=
  match m key with
  | some item =>
      if now < item.expires then (some item.value, m)
      else (none, fun k => if k = key then none else m k)
  | none => (none, m)

/-- In-memory branch of RateLimitStore.set. -/
def memSet (m : MemMap) (now : Nat) (key value : String) (ttl : Nat) : MemMap :=
  fun k => if k = key then some ⟨value, now + ttl⟩ else m k

/-- In-memory branch of RateLimitStore.incr: a fresh or expired counter is
recreated with value "1" and expiry now + ttl; an unexpired counter is
incremented with its expiry left unchanged. -/
def memIncr (m : MemMap) (now : Nat) (key : String) (ttl : Nat) : Nat × MemMap :=
  match m key with
  | some item =>
      if item.expires ≤ now then
        (1, fun k => if k = key then some ⟨"1", now + ttl⟩ else m k)
      else
        let count := pyInt item.value + 1
        (count, fun k => if k = key then some ⟨toString count, item.expires⟩ else m k)
  | none => (1, fun k => if k = key then some ⟨"1", now + ttl⟩ else m k)

/-- RateLimitStore.get. The remote parameter is the behaviour of the Redis
call when one is attempted; a raised connection error sets redis_client to
None and falls through to the in-memory branch. The last component records
whether the remote store was attempted. -/
def RateLimitStore.get (s : RateLimitStore) (now : Nat) (key : String)
    (remote : RemoteResult (Option String)) :
    Option String × RateLimitStore × Bool :=
  match s.redis_client, remote with
  | true, .ok v => (v, s, true)
  | true, .err =>
      let r := memGet s.store now key
      (r.1, ⟨r.2, false⟩, true)
  | false, _ =>
      let r := memGet s.store now key
      (r.1, { s with store := r.2 }, false)

/-- RateLimitStore.set (setex on the remote store). -/
def RateLimitStore.set (s : RateLimitStore) (now : Nat) (key value : String)
    (ttl : Nat) (remote : RemoteResult Unit) : RateLimitStore × Bool :=
  match s.redis_client, remote with
  | true, .ok _ => (s, true)
  | true, .err => (⟨memSet s.store now key value ttl, false⟩, true)
  | false, _ => ({ s with store := memSet s.store now key value ttl }, false)

/-- RateLimitStore.incr (pipelined incr+expire on the remote store). -/
def RateLimitStore.incr (s : RateLimitStore) (now : Nat) (key : String)
    (ttl : Nat) (remote : RemoteResult Nat) : Nat × RateLimitStore × Bool :=
  match s.redis_client, remote with
  | true, .ok n => (n, s, true)
  | true, .err =>
      let r := memIncr s.store now key ttl
      (r.1, ⟨r.2, false⟩, true)
  | false, _ =>
      let r := memIncr s.store now key ttl
      (r.1, { s with store := r.2 }, false)

/-- One store call, carrying its arguments and the behaviour of the remote
store were it to be attempted. -/
inductive StoreOp where
  | getOp : Nat → String → RemoteResult (Option String) → StoreOp
  | setOp : Nat → String → String → Nat → RemoteResult Unit → StoreOp
  | incrOp : Nat → String → Nat → RemoteResult Nat → StoreOp

/-- Whether the remote side of this operation would raise a connection
error if attempted. -/
def StoreOp.raisesRemote : StoreOp → Bool
  | .getOp _ _ .err => true
  | .setOp _ _ _ _ .err => true
  | .incrOp _ _ _ .err => true
  | _ => false

/-- Run one store operation; keep the new state and whether the remote
store was attempted. -/
def StoreOp.run (s : RateLimitStore) : StoreOp → RateLimitStore × Bool
  | .getOp now key remote =>
      let r := s.get now key remote
      (r.2.1, r.2.2)
  | .setOp now key value ttl remote => s.set now key value ttl remote
  | .incrOp now key ttl remote =>
      let r := s.incr now key ttl remote
      (r.2.1, r.2.2)

/-- Run a sequence of store operations; list of attempted-remote flags. -/
def runOps (s : RateLimitStore) : List StoreOp → List Bool
  | [] => []
  | op :: ops =>
      let r := op.run s
      r.2 :: runOps r.1 ops

/-! ## Rate limiting: PaymentRateLimiter -/

/-- One entry of PaymentRateLimiter.limits. -/
structure LimitConfig where
  requests : Nat
  window : Nat
  block_duration : Nat
deriving DecidableEq

/-- PaymentRateLimiter.limits, with self.limits.get defaulting to the
payment_intent entry for unknown endpoint types. -/
def limits : String → LimitConfig
  | "payment_intent" => ⟨10, 300, 900⟩
  | "payment_confirm" => ⟨5, 300, 1800⟩
  | "webhook" => ⟨100, 60, 300⟩
  | "analytics" => ⟨50, 300, 600⟩
  | _ => ⟨10, 300, 900⟩

/-- PaymentRateLimiter._is_whitelisted. The client identity string is the
composite produced by _get_client_id (network address, optional user id,
user-agent hash), taken here as an input. -/
def is_whitelisted (client_id : String) : Bool :=
  strContainsSub client_id "127.0.0.1" || strContainsSub client_id "localhost" ||
  strContainsSub (pyLower client_id) "admin"

/-- The block dictionary key for a (category, client) pair. -/
def blockKey (endpoint_type client_id : String) : String :=
  "rate_limit:block:" ++ (endpoint_type ++ (":" ++ client_id))

/-- The counter dictionary key for a (category, client) pair. -/
def countKey (endpoint_type client_id : String) : String :=
  "rate_limit:count:" ++ (endpoint_type ++ (":" ++ client_id))

/-- The limit_info dictionary returned by check_rate_limit: every key the
code may set, absent keys as defaults. -/
structure RateLimitInfo where
  whitelisted : Bool := false
  blocked : Bool := false
  limit_exceeded : Bool := false
  allowed : Bool := false
  client_id : String := ""
  endpoint_type : String := ""
  block_expires_in : Option Nat := none
  requests_made : Option Nat := none
  limit : Option Nat := none
  remaining : Option Nat := none
  window_seconds : Option Nat := none
  blocked_until : Option Nat := none
  reset_time : Option Nat := none
deriving DecidableEq

/-- The behaviours of the up to three remote-store calls one
check_rate_limit invocation can make. -/
structure RemoteEnv where
  getRes : RemoteResult (Option String)
  incrRes : RemoteResult Nat
  setRes : RemoteResult Unit

/-- PaymentRateLimiter.check_rate_limit. The client identity is an input
(derived from the HTTP request in the source); both clocks (time.time and
datetime.utcnow) are the parameter now. Returns the (is_allowed,
limit_info) pair of the source plus the threaded store state. -/
def check_rate_limit (s : RateLimitStore) (now : Nat)
    (endpoint_type client_id : String) (env : RemoteEnv) :
    Bool × RateLimitInfo × RateLimitStore :=
  if is_whitelisted client_id then
    (true, { whitelisted := true, client_id := client_id }, s)
  else
    let config := limits endpoint_type
    let g := s.get now (blockKey endpoint_type client_id) env.getRes
    if pyTruthy g.1 then
      (false,
        { blocked := true, client_id := client_id, endpoint_type := endpoint_type,
          block_expires_in := some config.block_duration }, g.2.1)
    else
      let r := (g.2.1).incr now (countKey endpoint_type client_id) config.window env.incrRes
      let current_count := r.1
      let remaining := config.requests - current_count
      let reset_time := now + config.window
      if config.requests < current_count then
        let st := (r.2.1).set now (blockKey endpoint_type client_id) "1"
          config.block_duration env.setRes
        (false,
          { limit_exceeded := true, client_id := client_id,
            endpoint_type := endpoint_type,
            requests_made := some current_count, limit := some config.requests,
            window_seconds := some config.window,
            blocked_until := some (now + config.block_duration),
            reset_time := some reset_time }, st.1)
      else
        (true,
          { allowed := true, client_id := client_id, endpoint_type := endpoint_type,
            requests_made := some current_count, limit := some config.requests,
            remaining := some remaining, reset_time := some reset_time,
            window_seconds := some config.window }, r.2.1)

/-- Run check_rate_limit for one client on a sequence of request times,
threading the store; collects the is_allowed flags and the final store. -/
def runChecks (endpoint_type client_id : String) (env : RemoteEnv) :
    RateLimitStore → List Nat → List Bool × RateLimitStore
  | s, [] => ([], s)
  | s, t :: ts =>
      let r := check_rate_limit s t endpoint_type client_id env
      let rest := runChecks endpoint_type client_id env r.2.2 ts
      (r.1 :: rest.1, rest.2)

/-! ## Rate limiting: helper lemmas -/

/-- Nat printing and pyInt agree on the small counters of the scenarios. -/
theorem pyInt_toString : ∀ j, j < 12 → pyInt (toString j) = j := by decide

/-- The block and counter keys of one (category, client) pair differ. -/
theorem blockKey_ne_countKey (et cid : String) : blockKey et cid ≠ countKey et cid := by
  intro h
  have hd : ("rate_limit:block:" : String).data ++ (et ++ (":" ++ cid)).data
      = ("rate_limit:count:" : String).data ++ (et ++ (":" ++ cid)).data := by
    simpa [blockKey, countKey, String.data_append] using congrArg String.data h
  have := List.append_cancel_right hd
  simp at this

/-- A store call on a demoted store never attempts the remote store and
leaves the store demoted. -/
theorem run_local (s : RateLimitStore) (op : StoreOp) (h : s.redis_client = false) :
    (op.run s).2 = false ∧ (op.run s).1.redis_client = false := by
  obtain ⟨m, rc⟩ := s
  simp only at h
  subst h
  cases op <;>
    simp [StoreOp.run, RateLimitStore.get, RateLimitStore.set, RateLimitStore.incr]

/-- Every op of a run on a demoted store reports no remote attempt. -/
theorem runOps_local (ops : List StoreOp) :
    ∀ s : RateLimitStore, s.redis_client = false → ∀ b ∈ runOps s ops, b = false := by
  induction ops with
  | nil => intro s hs b hb; simp [runOps] at hb
  | cons op ops ih =>
      intro s hs b hb
      obtain ⟨h1, h2⟩ := run_local s op hs
      simp only [runOps, List.mem_cons] at hb
      rcases hb with hb | hb
      · rw [hb, h1]
      · exact ih _ h2 b hb

/-! ## Claims C9, C10, C8, C7 -/

/-- Claim C9: store demotion is sticky. If an operation is run against a
live remote store and its remote call raises a connection error, the store
is demoted (redis_client becomes None), and every subsequent get, set or
incr of the same store never attempts the remote store again — it runs
purely on the local in-memory map. -/
theorem store_demotion_sticky (s : RateLimitStore) (op : StoreOp)
    (ops : List StoreOp) (hr : s.redis_client = true)
    (he : op.raisesRemote = true) :
    (op.run s).1.redis_client = false ∧
    ∀ b ∈ runOps (op.run s).1 ops, b = false := by
  have h1 : (op.run s).1.redis_client = false := by
    obtain ⟨m, rc⟩ := s
    simp only at hr
    subst hr
    cases op with
    | getOp n k r =>
        cases r
        · simp [StoreOp.raisesRemote] at he
        · simp [StoreOp.run, RateLimitStore.get]
    | setOp n k v ttl r =>
        cases r
        · simp [StoreOp.raisesRemote] at he
        · simp [StoreOp.run, RateLimitStore.set]
    | incrOp n k ttl r =>
        cases r
        · simp [StoreOp.raisesRemote] at he
        · simp [StoreOp.run, RateLimitStore.incr]
  exact ⟨h1, runOps_local ops _ h1⟩

/-- Witness for store_demotion_sticky: a failing get demotes the store, and
a following get, incr and set all stay local. -/
theorem store_demotion_sticky_witness :
    ((StoreOp.getOp 0 "k" .err).run ⟨fun _ => none, true⟩).1.redis_client = false ∧
    ∀ b ∈ runOps ((StoreOp.getOp 0 "k" .err).run ⟨fun _ => none, true⟩).1
        [StoreOp.getOp 1 "k" (.ok none), StoreOp.incrOp 2 "k" 300 (.ok 5),
         StoreOp.setOp 3 "k" "1" 60 (.ok ())], b = false :=
  store_demotion_sticky ⟨fun _ => none, true⟩ (StoreOp.getOp 0 "k" .err)
    [StoreOp.getOp 1 "k" (.ok none), StoreOp.incrOp 2 "k" 300 (.ok 5),
     StoreOp.setOp 3 "k" "1" 60 (.ok ())] rfl rfl

/-- Claim C10: in the in-memory store, incrementing a present, unexpired
key raises its count by one and leaves the expiry unchanged; a counter that
is absent or expired is recreated with count 1 and expiry now + ttl (the
ttl check_rate_limit passes is the window width), so the window end is
fixed at first creation and never extended by later increments. -/
theorem incr_fixed_window (m : MemMap) (key : String) (now ttl : Nat)
    (remote : RemoteResult Nat) :
    (∀ item, m key = some item → now < item.expires →
      (RateLimitStore.incr ⟨m, false⟩ now key ttl remote).1 = pyInt item.value + 1 ∧
      ((RateLimitStore.incr ⟨m, false⟩ now key ttl remote).2.1).store key
        = some ⟨toString (pyInt item.value + 1), item.expires⟩) ∧
    (∀ item, m key = some item → item.expires ≤ now →
      (RateLimitStore.incr ⟨m, false⟩ now key ttl remote).1 = 1 ∧
      ((RateLimitStore.incr ⟨m, false⟩ now key ttl remote).2.1).store key
        = some ⟨"1", now + ttl⟩) ∧
    (m key = none →
      (RateLimitStore.incr ⟨m, false⟩ now key ttl remote).1 = 1 ∧
      ((RateLimitStore.incr ⟨m, false⟩ now key ttl remote).2.1).store key
        = some ⟨"1", now + ttl⟩) := by
  refine ⟨?_, ?_, ?_⟩
  · intro item hm hexp
    have hlt : ¬ (item.expires ≤ now) := by omega
    constructor <;> simp [RateLimitStore.incr, memIncr, hm, hlt]
  · intro item hm hexp
    constructor <;> simp [RateLimitStore.incr, memIncr, hm, hexp]
  · intro hm
    constructor <;> simp [RateLimitStore.incr, memIncr, hm]

/-- Witness for incr_fixed_window: an unexpired counter of value 2 and
expiry 100 increments to 3 with expiry still 100. -/
theorem incr_fixed_window_witness :
    (RateLimitStore.incr
        ⟨fun k => if k = "c" then some ⟨"2", 100⟩ else none, false⟩
        50 "c" 300 (.ok 9)).1 = pyInt "2" + 1 ∧
    ((RateLimitStore.incr
        ⟨fun k => if k = "c" then some ⟨"2", 100⟩ else none, false⟩
        50 "c" 300 (.ok 9)).2.1).store "c"
      = some ⟨toString (pyInt "2" + 1), 100⟩ :=
  (incr_fixed_window (fun k => if k = "c" then some ⟨"2", 100⟩ else none)
      "c" 50 300 (.ok 9)).1 ⟨"2", 100⟩ (by decide) (by decide)

/-- Claim C8: a client identity containing a loopback marker or an admin
marker is always allowed, for every prior store state (live or demoted
remote, any counters, any active block), and the store state is returned
untouched: no counter incremented, no block read or set. -/
theorem whitelist_bypass (s : RateLimitStore) (now : Nat) (et cid : String)
    (env : RemoteEnv)
    (h : strContainsSub cid "127.0.0.1" = true ∨
         strContainsSub cid "localhost" = true ∨
         strContainsSub (pyLower cid) "admin" = true) :
    check_rate_limit s now et cid env
      = (true, { whitelisted := true, client_id := cid }, s) := by
  have hw : is_whitelisted cid = true := by
    unfold is_whitelisted
    rcases h with h | h | h <;> simp [h]
  simp [check_rate_limit, hw]

/-- Witness for whitelist_bypass: a loopback identity under an active
block for that very identity, on a store with a live remote client, is
still allowed with the state unchanged. -/
theorem whitelist_bypass_witness :
    check_rate_limit ⟨fun _ => some ⟨"1", 1000000⟩, true⟩ 5 "payment_intent"
        "127.0.0.1|ua:1a2b" ⟨.err, .err, .err⟩
      = (true, { whitelisted := true, client_id := "127.0.0.1|ua:1a2b" },
         ⟨fun _ => some ⟨"1", 1000000⟩, true⟩) :=
  whitelist_bypass ⟨fun _ => some ⟨"1", 1000000⟩, true⟩ 5 "payment_intent"
    "127.0.0.1|ua:1a2b" ⟨.err, .err, .err⟩ (Or.inl (by decide))

/-- Shared helper: with an unexpired, truthy block record present, a local
check_rate_limit call rejects and returns the fixed configured block
duration, with the store unchanged. -/
theorem check_blocked_general (s : RateLimitStore) (now : Nat)
    (et cid : String) (env : RemoteEnv) (item : StoreItem)
    (hwl : is_whitelisted cid = false) (hr : s.redis_client = false)
    (hb : s.store (blockKey et cid) = some item)
    (hexp : now < item.expires) (hval : item.value.data.isEmpty = false) :
    check_rate_limit s now et cid env
      = (false,
          { blocked := true, client_id := cid, endpoint_type := et,
            block_expires_in := some (limits et).block_duration }, s) := by
  obtain ⟨m, rc⟩ := s
  simp only at hr hb
  subst hr
  simp [check_rate_limit, hwl, RateLimitStore.get, memGet, hb, hexp, pyTruthy, hval]

/-- Claim C7, counterexample: a block set at time 0 for 900 seconds,
queried at time 600, is reported with block_expires_in = 900, the full
configured duration, not the 300 seconds actually remaining. -/
theorem blocked_retry_after_cex :
    (check_rate_limit
        ⟨fun k => if k = blockKey "payment_intent" "c1" then some ⟨"1", 900⟩ else none,
          false⟩ 600 "payment_intent" "c1" ⟨.err, .err, .err⟩).1 = false ∧
    (check_rate_limit
        ⟨fun k => if k = blockKey "payment_intent" "c1" then some ⟨"1", 900⟩ else none,
          false⟩ 600 "payment_intent" "c1" ⟨.err, .err, .err⟩).2.1.block_expires_in
      = some 900 ∧
    ¬ ((check_rate_limit
        ⟨fun k => if k = blockKey "payment_intent" "c1" then some ⟨"1", 900⟩ else none,
          false⟩ 600 "payment_intent" "c1" ⟨.err, .err, .err⟩).2.1.block_expires_in
      = some (900 - 600)) := by
  refine ⟨?_, ?_, ?_⟩ <;> decide

/-- Claim C7, amended: whenever an unexpired block record exists for a
(category, client) pair, check_rate_limit rejects the request, but the
reported block_expires_in is the fixed configured block duration of the
category, independent of how much of the block has elapsed — not the
remaining time until blocked-until. -/
theorem blocked_reports_fixed_duration (s : RateLimitStore) (now : Nat)
    (et cid : String) (env : RemoteEnv) (item : StoreItem)
    (hwl : is_whitelisted cid = false) (hr : s.redis_client = false)
    (hb : s.store (blockKey et cid) = some item)
    (hexp : now < item.expires) (hval : item.value.data.isEmpty = false) :
    (check_rate_limit s now et cid env).1 = false ∧
    (check_rate_limit s now et cid env).2.1.block_expires_in
      = some (limits et).block_duration ∧
    (check_rate_limit s now et cid env).2.2 = s := by
  rw [check_blocked_general s now et cid env item hwl hr hb hexp hval]
  exact ⟨rfl, rfl, rfl⟩

/-- Witness for blocked_reports_fixed_duration at a concrete blocked
client midway through its block. -/
theorem blocked_reports_fixed_duration_witness :
    (check_rate_limit
        ⟨fun k => if k = blockKey "payment_confirm" "c2" then some ⟨"1", 2000⟩ else none,
          false⟩ 700 "payment_confirm" "c2" ⟨.err, .err, .err⟩).1 = false ∧
    (check_rate_limit
        ⟨fun k => if k = blockKey "payment_confirm" "c2" then some ⟨"1", 2000⟩ else none,
          false⟩ 700 "payment_confirm" "c2" ⟨.err, .err, .err⟩).2.1.block_expires_in
      = some (limits "payment_confirm").block_duration ∧
    (check_rate_limit
        ⟨fun k => if k = blockKey "payment_confirm" "c2" then some ⟨"1", 2000⟩ else none,
          false⟩ 700 "payment_confirm" "c2" ⟨.err, .err, .err⟩).2.2
      = ⟨fun k => if k = blockKey "payment_confirm" "c2" then some ⟨"1", 2000⟩ else none,
          false⟩ :=
  blocked_reports_fixed_duration
    ⟨fun k => if k = blockKey "payment_confirm" "c2" then some ⟨"1", 2000⟩ else none,
      false⟩ 700 "payment_confirm" "c2" ⟨.err, .err, .err⟩ ⟨"1", 2000⟩
    (by decide) rfl (by decide) (by decide) (by decide)

/-! ## Claim C2: the full window scenario -/

/-- Step lemma: with no live block entry and no live counter for this
client (absent or expired entries), a payment_intent check is allowed and
starts a fresh window: counter "1" expiring at t + 300, no block. -/
theorem check_step_fresh (s : RateLimitStore) (cid : String) (env : RemoteEnv)
    (t : Nat) (hwl : is_whitelisted cid = false) (hr : s.redis_client = false)
    (hb : s.store (blockKey "payment_intent" cid) = none ∨
          ∃ it, s.store (blockKey "payment_intent" cid) = some it ∧ it.expires ≤ t)
    (hc : s.store (countKey "payment_intent" cid) = none ∨
          ∃ it, s.store (countKey "payment_intent" cid) = some it ∧ it.expires ≤ t) :
    (check_rate_limit s t "payment_intent" cid env).1 = true ∧
    ((check_rate_limit s t "payment_intent" cid env).2.2).redis_client = false ∧
    ((check_rate_limit s t "payment_intent" cid env).2.2).store
        (blockKey "payment_intent" cid) = none ∧
    ((check_rate_limit s t "payment_intent" cid env).2.2).store
        (countKey "payment_intent" cid) = some ⟨"1", t + 300⟩ := by
  obtain ⟨m, rc⟩ := s
  simp only at hr hb hc
  subst hr
  have hne := blockKey_ne_countKey "payment_intent" cid
  have hne2 : countKey "payment_intent" cid ≠ blockKey "payment_intent" cid :=
    Ne.symm hne
  have hcfg : limits "payment_intent" = ⟨10, 300, 900⟩ := rfl
  have h101 : ¬ ((10 : Nat) < 1) := by omega
  rcases hb with hb | ⟨itb, hb, hbe⟩ <;> rcases hc with hc | ⟨itc, hc, hce⟩
  · refine ⟨?_, ?_, ?_, ?_⟩ <;>
      simp [check_rate_limit, hwl, RateLimitStore.get, memGet, hb, hc, pyTruthy,
        RateLimitStore.incr, memIncr, hcfg, hne, h101]
  · refine ⟨?_, ?_, ?_, ?_⟩ <;>
      simp [check_rate_limit, hwl, RateLimitStore.get, memGet, hb, hc, hce, pyTruthy,
        RateLimitStore.incr, memIncr, hcfg, hne, h101]
  · have hbe2 : ¬ (t < itb.expires) := by omega
    refine ⟨?_, ?_, ?_, ?_⟩ <;>
      simp [check_rate_limit, hwl, RateLimitStore.get, memGet, hb, hbe2, hc, pyTruthy,
        RateLimitStore.incr, memIncr, hcfg, hne, hne2, h101]
  · have hbe2 : ¬ (t < itb.expires) := by omega
    refine ⟨?_, ?_, ?_, ?_⟩ <;>
      simp [check_rate_limit, hwl, RateLimitStore.get, memGet, hb, hbe2, hc, hce, pyTruthy,
        RateLimitStore.incr, memIncr, hcfg, hne, hne2, h101]

/-- Step lemma: with no block entry and a live counter of value k < 10
expiring at E, an in-window payment_intent check is allowed and only bumps
the counter, keeping its expiry E. -/
theorem check_step_allowed (s : RateLimitStore) (cid : String) (env : RemoteEnv)
    (t E k : Nat) (hwl : is_whitelisted cid = false) (hr : s.redis_client = false)
    (hb : s.store (blockKey "payment_intent" cid) = none)
    (hc : s.store (countKey "payment_intent" cid) = some ⟨toString k, E⟩)
    (ht : t < E) (hk : k < 10) :
    (check_rate_limit s t "payment_intent" cid env).1 = true ∧
    ((check_rate_limit s t "payment_intent" cid env).2.2).redis_client = false ∧
    ((check_rate_limit s t "payment_intent" cid env).2.2).store
        (blockKey "payment_intent" cid) = none ∧
    ((check_rate_limit s t "payment_intent" cid env).2.2).store
        (countKey "payment_intent" cid) = some ⟨toString (k + 1), E⟩ := by
  obtain ⟨m, rc⟩ := s
  simp only at hr hb hc
  subst hr
  have hne := blockKey_ne_countKey "payment_intent" cid
  have hcfg : limits "payment_intent" = ⟨10, 300, 900⟩ := rfl
  have hki : pyInt (toString k) = k := pyInt_toString k (by omega)
  have hE : ¬ (E ≤ t) := by omega
  have h10 : ¬ ((10 : Nat) < k + 1) := by omega
  refine ⟨?_, ?_, ?_, ?_⟩ <;>
    simp [check_rate_limit, hwl, RateLimitStore.get, memGet, hb, hc, pyTruthy,
      RateLimitStore.incr, memIncr, hcfg, hne, hki, hE, h10]

/-- Step lemma: with no block entry and a live counter already at 10, an
in-window payment_intent check is the 11th request: it is rejected, the
counter becomes 11 (expiry unchanged) and a block is set for 900 seconds. -/
theorem check_step_exceed (s : RateLimitStore) (cid : String) (env : RemoteEnv)
    (t E : Nat) (hwl : is_whitelisted cid = false) (hr : s.redis_client = false)
    (hb : s.store (blockKey "payment_intent" cid) = none)
    (hc : s.store (countKey "payment_intent" cid) = some ⟨toString 10, E⟩)
    (ht : t < E) :
    (check_rate_limit s t "payment_intent" cid env).1 = false ∧
    ((check_rate_limit s t "payment_intent" cid env).2.2).redis_client = false ∧
    ((check_rate_limit s t "payment_intent" cid env).2.2).store
        (blockKey "payment_intent" cid) = some ⟨"1", t + 900⟩ ∧
    ((check_rate_limit s t "payment_intent" cid env).2.2).store
        (countKey "payment_intent" cid) = some ⟨toString 11, E⟩ := by
  obtain ⟨m, rc⟩ := s
  simp only at hr hb hc
  subst hr
  have hne := blockKey_ne_countKey "payment_intent" cid
  have hne2 : countKey "payment_intent" cid ≠ blockKey "payment_intent" cid :=
    Ne.symm hne
  have hcfg : limits "payment_intent" = ⟨10, 300, 900⟩ := rfl
  have hki : pyInt (toString 10) = 10 := by decide
  have hE : ¬ (E ≤ t) := by omega
  have h10 : (10 : Nat) < 10 + 1 := by omega
  refine ⟨?_, ?_, ?_, ?_⟩ <;>
    simp [check_rate_limit, hwl, RateLimitStore.get, memGet, hb, hc, pyTruthy,
      RateLimitStore.incr, memIncr, RateLimitStore.set, memSet, hcfg, hne, hne2,
      hki, hE, h10]

/-- Running a batch of in-window requests that stays within the ceiling:
all are allowed and the counter advances by the batch size with its expiry
unchanged; no block appears. -/
theorem run_inwindow (cid : String) (env : RemoteEnv)
    (hwl : is_whitelisted cid = false) (E : Nat) (ts : List Nat) :
    ∀ (k : Nat) (s : RateLimitStore),
      s.redis_client = false →
      s.store (blockKey "payment_intent" cid) = none →
      s.store (countKey "payment_intent" cid) = some ⟨toString k, E⟩ →
      k + ts.length ≤ 10 →
      (∀ t ∈ ts, t < E) →
      (runChecks "payment_intent" cid env s ts).1 = List.replicate ts.length true ∧
      (runChecks "payment_intent" cid env s ts).2.redis_client = false ∧
      (runChecks "payment_intent" cid env s ts).2.store
          (blockKey "payment_intent" cid) = none ∧
      (runChecks "payment_intent" cid env s ts).2.store
          (countKey "payment_intent" cid) = some ⟨toString (k + ts.length), E⟩ := by
  induction ts with
  | nil =>
      intro k s hr hb hc hlen hts
      refine ⟨by simp [runChecks], by simp [runChecks, hr], by simp [runChecks, hb],
        by simp [runChecks, hc]⟩
  | cons t ts ih =>
      intro k s hr hb hc hlen hts
      obtain ⟨a1, a2, a3, a4⟩ := check_step_allowed s cid env t E k hwl hr hb hc
        (hts t (by simp)) (by simp at hlen; omega)
      obtain ⟨g1, g2, g3, g4⟩ := ih (k + 1) _ a2 a3 a4
        (by simp at hlen ⊢; omega) (fun x hx => hts x (by simp [hx]))
      have hlen2 : k + 1 + ts.length = k + (t :: ts).length := by simp; omega
      refine ⟨?_, ?_, ?_, ?_⟩
      · simp [runChecks, a1, g1, List.replicate_succ]
      · simp [runChecks, g2]
      · simp [runChecks, g3]
      · simp only [runChecks]
        rw [g4, hlen2]

/-- runChecks distributes over list append. -/
theorem runChecks_append (et cid : String) (env : RemoteEnv)
    (l1 l2 : List Nat) :
    ∀ s : RateLimitStore,
      (runChecks et cid env s (l1 ++ l2)).1
        = (runChecks et cid env s l1).1 ++
          (runChecks et cid env (runChecks et cid env s l1).2 l2).1 ∧
      (runChecks et cid env s (l1 ++ l2)).2
        = (runChecks et cid env (runChecks et cid env s l1).2 l2).2 := by
  induction l1 with
  | nil => intro s; simp [runChecks]
  | cons t ts ih => intro s; simp [runChecks, ih]

/-- Claim C2: for one non-whitelisted client on the payment_intent
category (ceiling 10, window 300 s, block 900 s), starting with no counter
and no block for that client: requests 1-10 inside the window are allowed,
the 11th in-window request is rejected and sets a 900-second block, a 12th
request before the block expires is rejected, and a request at or after
block expiry starts a fresh window and is allowed. -/
theorem rate_limit_window_scenario (cid : String) (env : RemoteEnv)
    (s0 : RateLimitStore) (t1 : Nat) (ts : List Nat) (t11 t12 t13 : Nat)
    (hwl : is_whitelisted cid = false)
    (hr : s0.redis_client = false)
    (hb : s0.store (blockKey "payment_intent" cid) = none)
    (hc : s0.store (countKey "payment_intent" cid) = none)
    (hlen : ts.length = 9)
    (hts : ∀ t ∈ ts, t < t1 + 300)
    (h11 : t11 < t1 + 300) (h11a : t1 ≤ t11)
    (h12 : t12 < t11 + 900) (h13 : t11 + 900 ≤ t13) :
    (runChecks "payment_intent" cid env s0 ((t1 :: ts) ++ [t11, t12, t13])).1
      = (true :: List.replicate 9 true) ++ [false, false, true] ∧
    (runChecks "payment_intent" cid env s0 ((t1 :: ts) ++ [t11])).2.store
        (blockKey "payment_intent" cid) = some ⟨"1", t11 + 900⟩ ∧
    (runChecks "payment_intent" cid env s0 ((t1 :: ts) ++ [t11, t12, t13])).2.store
        (countKey "payment_intent" cid) = some ⟨"1", t13 + 300⟩ := by
  obtain ⟨a1, a2, a3, a4⟩ := check_step_fresh s0 cid env t1 hwl hr (Or.inl hb)
    (Or.inl hc)
  have a4' : ((check_rate_limit s0 t1 "payment_intent" cid env).2.2).store
      (countKey "payment_intent" cid) = some ⟨toString 1, t1 + 300⟩ := by
    rw [a4]; rfl
  obtain ⟨m1, m2, m3, m4⟩ := run_inwindow cid env hwl (t1 + 300) ts 1 _ a2 a3 a4'
    (by omega) hts
  rw [hlen] at m4
  norm_num at m4
  obtain ⟨e1, e2, e3, e4⟩ := check_step_exceed _ cid env t11 (t1 + 300) hwl m2 m3
    m4 h11
  have hU := check_blocked_general
    ((check_rate_limit
        (runChecks "payment_intent" cid env
          (check_rate_limit s0 t1 "payment_intent" cid env).2.2 ts).2
        t11 "payment_intent" cid env).2.2)
    t12 "payment_intent" cid env ⟨"1", t11 + 900⟩ hwl e2 e3 h12 rfl
  obtain ⟨f1, f2, f3, f4⟩ := check_step_fresh _ cid env t13 hwl e2
    (Or.inr ⟨⟨"1", t11 + 900⟩, e3, h13⟩)
    (Or.inr ⟨⟨toString 11, t1 + 300⟩, e4, by show t1 + 300 ≤ t13; omega⟩)
  have hpre1 : (runChecks "payment_intent" cid env s0 (t1 :: ts)).1
      = true :: List.replicate 9 true := by
    simp [runChecks, a1, m1, hlen]
  have hpre2 : (runChecks "payment_intent" cid env s0 (t1 :: ts)).2
      = (runChecks "payment_intent" cid env
          (check_rate_limit s0 t1 "payment_intent" cid env).2.2 ts).2 := by
    simp [runChecks]
  obtain ⟨app1, app2⟩ := runChecks_append "payment_intent" cid env (t1 :: ts)
    [t11, t12, t13] s0
  obtain ⟨bpp1, bpp2⟩ := runChecks_append "payment_intent" cid env (t1 :: ts)
    [t11] s0
  refine ⟨?_, ?_, ?_⟩
  · rw [app1, hpre1, hpre2]
    simp only [runChecks]
    rw [hU]
    simp only [e1, f1]
  · rw [bpp2, hpre2]
    simp only [runChecks]
    exact e3
  · rw [app2, hpre2]
    simp only [runChecks]
    rw [hU]
    exact f4

/-- Witness for rate_limit_window_scenario: a concrete client with
requests at seconds 0-9 (allowed), 10 (rejected, blocked until 910), 100
(rejected) and 910 (allowed again). -/
theorem rate_limit_window_scenario_witness :
    (runChecks "payment_intent" "client_9" ⟨.err, .err, .err⟩ ⟨fun _ => none, false⟩
        ((0 :: [1, 2, 3, 4, 5, 6, 7, 8, 9]) ++ [10, 100, 910])).1
      = (true :: List.replicate 9 true) ++ [false, false, true] ∧
    (runChecks "payment_intent" "client_9" ⟨.err, .err, .err⟩ ⟨fun _ => none, false⟩
        ((0 :: [1, 2, 3, 4, 5, 6, 7, 8, 9]) ++ [10])).2.store
        (blockKey "payment_intent" "client_9") = some ⟨"1", 10 + 900⟩ ∧
    (runChecks "payment_intent" "client_9" ⟨.err, .err, .err⟩ ⟨fun _ => none, false⟩
        ((0 :: [1, 2, 3, 4, 5, 6, 7, 8, 9]) ++ [10, 100, 910])).2.store
        (countKey "payment_intent" "client_9") = some ⟨"1", 910 + 300⟩ :=
  rate_limit_window_scenario "client_9" ⟨.err, .err, .err⟩ ⟨fun _ => none, false⟩
    0 [1, 2, 3, 4, 5, 6, 7, 8, 9] 10 100 910 (by decide) rfl rfl rfl (by decide)
    (by decide) (by decide) (by decide) (by decide) (by decide)
